import Mathlib

/-!
Shallow embedding of the product-generation pipeline of the
`vercel-bigcommerce` repository, together with proofs about the claims of
its natural-language specification.

The embedded code comes from:
* `src/app/workflows/product-generator/generate-products.ts`
  (`isPlaceholderImage`, `generateProducts`);
* the workflow orchestrator `productGeneratorWorkflow` and the image
  publisher `uploadProductImages` (`src/unnamed/part_005`);
* the commerce record creator `createShopifyProducts` (`src/unnamed/part_006`).

Modelling conventions:
* JavaScript strings are Lean `String`s; character-level analysis works on
  `String.data` (`List Char`).
* JavaScript numbers are modelled as `ℚ` (the values exercised here are
  small and exactly representable; the float/rational distinction does not
  affect any claim below, which is noted where relevant).
* Byte buffers are `List Nat` of values `< 256`.
* A JavaScript function that can throw is modelled as `Except String α`,
  the `String` being the error message.
* External network calls (`generateText`, `fetch` against the Shopify API)
  and `JSON.parse` are modelled as oracles quantified over in the theorems,
  so every theorem holds for every behaviour of the external services.
-/

namespace ProductPipeline

/-! ### Generic character-list helpers (JS string primitives) -/

/-- `pat` is a prefix of `s` (models `String.prototype.startsWith`). -/
def startsWithL : List Char → List Char → Bool
  | [], _ => true
  | _ :: _, [] => false
  | p :: ps, c :: cs => p = c && startsWithL ps cs

/-- `s` contains `pat` as a contiguous substring (models `String.prototype.includes`). -/
def containsL (pat : List Char) : List Char → Bool
  | [] => startsWithL pat []
  | c :: rest => startsWithL pat (c :: rest) || containsL pat rest

/-- The suffix of `s` after the first occurrence of `pat`
(models `s.substring(s.indexOf(pat) + pat.length)` under an `includes` guard;
returns `[]` when `pat` does not occur). -/
def afterFirst (pat : List Char) : List Char → List Char
  | [] => []
  | c :: rest =>
    if startsWithL pat (c :: rest) then (c :: rest).drop pat.length
    else afterFirst pat rest

/-- `String.prototype.trim`: strip leading and trailing whitespace
(the inputs of interest use ASCII whitespace, covered by
`Char.isWhitespace`). -/
def jsTrim (s : String) : String :=
  String.mk ((s.data.dropWhile Char.isWhitespace).reverse.dropWhile Char.isWhitespace).reverse

/-! ### Base64 (Node `Buffer.from(_, 'base64')` / `.toString('base64')`) -/

/-- Value of a base64 alphabet character; `none` for characters outside the
alphabet, which Node's decoder skips (`=` padding is likewise skipped). -/
def charVal (c : Char) : Option Nat :=
  if 'A' ≤ c ∧ c ≤ 'Z' then some (c.toNat - 65)
  else if 'a' ≤ c ∧ c ≤ 'z' then some (c.toNat - 97 + 26)
  else if '0' ≤ c ∧ c ≤ '9' then some (c.toNat - 48 + 52)
  else if c = '+' then some 62
  else if c = '/' then some 63
  else none

/-- Pack a list of 6-bit values into 8-bit bytes; incomplete trailing bits
are dropped exactly as Node does (1 leftover sextet yields no byte,
2 yield one byte, 3 yield two bytes). -/
def packSextets : List Nat → List Nat
  | a :: b :: c :: d :: rest =>
      (a * 4 + b / 16) :: ((b % 16) * 16 + c / 4) :: ((c % 4) * 64 + d) :: packSextets rest
  | [a, b] => [a * 4 + b / 16]
  | [a, b, c] => [a * 4 + b / 16, (b % 16) * 16 + c / 4]
  | _ => []

/-- Decode a base64 string to bytes, Node-style (forgiving: non-alphabet
characters are skipped). -/
def b64decode (s : List Char) : List Nat :=
  packSextets (s.filterMap charVal)

/-- The base64 alphabet. -/
def b64Alphabet : List Char :=
  "ABCDEFGHIJKLMNOPQRSTUVWXYZabcdefghijklmnopqrstuvwxyz0123456789+/".data

/-- Character for a 6-bit value. -/
def b64Char (n : Nat) : Char := b64Alphabet.getD n 'A'

/-- Encode bytes as padded base64 (models `Buffer.prototype.toString('base64')`). -/
def b64encode : List Nat → List Char
  | a :: b :: c :: rest =>
      b64Char (a / 4) :: b64Char ((a % 4) * 16 + b / 16) ::
      b64Char ((b % 16) * 4 + c / 64) :: b64Char (c % 64) :: b64encode rest
  | [a, b] => [b64Char (a / 4), b64Char ((a % 4) * 16 + b / 16), b64Char ((b % 16) * 4), '=']
  | [a] => [b64Char (a / 4), b64Char ((a % 4) * 16), '=', '=']
  | [] => []

/-- UTF-8 encoding of a character list (standard four-range encoder);
used to model `Buffer.from(string)` for the synthesized SVG placeholder. -/
def utf8Bytes : List Char → List Nat
  | [] => []
  | c :: rest =>
    let n := c.toNat
    (if n < 128 then [n]
     else if n < 2048 then [192 + n / 64, 128 + n % 64]
     else if n < 65536 then [224 + n / 4096, 128 + (n / 64) % 64, 128 + n % 64]
     else [240 + n / 262144, 128 + (n / 4096) % 64, 128 + (n / 64) % 64, 128 + n % 64])
      ++ utf8Bytes rest

/-! ### Placeholder detection (`generate-products.ts`, lines 20–62) -/

/-- The capture of the regex `/base64,(.+)/` applied to `s`: the scanner
finds the first position where `base64,` is followed by at least one
non-newline character; the greedy `(.+)` then captures up to the next
newline (`.` does not match `\n`). `none` models a failed match. -/
def base64Capture : List Char → Option (List Char)
  | [] => none
  | c :: rest =>
    if startsWithL "base64,".data (c :: rest) then
      match (c :: rest).drop 7 with
      | [] => base64Capture rest
      | a :: tail =>
        if a = '\n' then base64Capture rest
        else some ((a :: tail).takeWhile (fun ch => ch ≠ '\n'))
    else base64Capture rest

/-- Mean of a byte sample as an exact rational
(models `samples.reduce((a, b) => a + b, 0) / samples.length`). -/
def sampleAvg (samples : List Nat) : ℚ :=
  ((samples.map (fun (n : Nat) => (n : ℚ))).sum) / (samples.length : ℚ)

/-- `samples.filter(s => Math.abs(s - avg) < 10).length` with the average of
the full sample. -/
def uniformCount (samples : List Nat) : Nat :=
  (samples.filter (fun (s : Nat) => decide (|(s : ℚ) - sampleAvg samples| < 10))).length

/-- The buffer analysis of `isPlaceholderImage` (lines 35–55): buffers under
1024 bytes are placeholders; otherwise the first `min 100 len` bytes are
sampled and the buffer is a placeholder when strictly more than 80% of the
sampled values lie within 10 of the sample mean. -/
def bufferCheck (buffer : List Nat) : Bool :=
  if buffer.length < 1024 then true
  else
    let samples := buffer.take (min 100 buffer.length)
    decide (((uniformCount samples : ℚ)) / ((samples.length : ℚ)) > 8 / 10)

/-- `isPlaceholderImage` (`generate-products.ts`, lines 20–62).  The
`try`/`catch` of the source can only be entered through code that does not
throw (`Buffer.from` is total on strings), so the `catch` branch is dead and
the function reduces to: SVG marker check, then regex capture, then the
buffer analysis, with `false` when the capture fails or the analysis falls
through. -/
def isPlaceholderImage (imageDataUri : String) : Bool :=
  if containsL "data:image/svg+xml".data imageDataUri.data then true
  else
    match base64Capture imageDataUri.data with
    | none => false
    | some base64Data => bufferCheck (b64decode base64Data)

/-! ### Input normalization (`productGeneratorWorkflow`, `src/unnamed/part_005`
lines 36–67; the same logic appears as `organizeInput` in
`src/app/api/v0-chat/route.ts`) -/

/-- A raw entry of the caller-supplied `categories` array.  `category = none`
models a missing or non-string `category` field, `count = none` a missing or
non-number `count` field; a `null`/`undefined` array element behaves exactly
like `⟨none, none⟩` (every check of the filter fails the same way). -/
structure RawCategory where
  category : Option String
  count : Option ℚ
deriving DecidableEq

/-- A validated and trimmed category request. -/
structure CategoryInput where
  category : String
  count : ℚ
deriving DecidableEq

/-- The organized batch: validated categories plus the total item count. -/
structure OrganizedInput where
  categories : List CategoryInput
  totalProducts : ℚ
deriving DecidableEq

/-- The filter callback of lines 46–54: the entry must have a truthy string
`category` (non-empty; truthiness of a JS string is non-emptiness) and a
number `count` with `1 ≤ count ≤ 100`.  The source performs no integrality
check on `count`. -/
def validCategory (cat : RawCategory) : Bool :=
  match cat.category with
  | none => false
  | some s =>
    if s = "" then false
    else
      match cat.count with
      | none => false
      | some q => decide (1 ≤ q) && decide (q ≤ 100)

/-- The inlined input-organization step of `productGeneratorWorkflow`
(lines 37–67).  An `Except.error` models a thrown `Error` with the given
message. -/
def organizeInput (categories : List RawCategory) : Except String OrganizedInput :=
  if categories.length = 0 then
    Except.error "Categories array is required and cannot be empty"
  else if categories.length > 10 then
    Except.error "Maximum 10 categories allowed"
  else
    let validCategories := categories.filter validCategory
    if validCategories.length = 0 then
      Except.error "No valid categories found. Each category needs a name and count between 1-100"
    else
      Except.ok
        { categories := validCategories.map (fun cat =>
            { category := jsTrim (cat.category.getD ""), count := cat.count.getD 0 }),
          totalProducts := (validCategories.map (fun cat => cat.count.getD 0)).sum }

/-! ### Item content generation (`generate-products.ts`, lines 64–322) -/

/-- A product variant `{title, price}` as text. -/
structure ProductVariant where
  title : String
  price : String
deriving DecidableEq

/-- `GeneratedProduct` of `generate-products.ts`. -/
structure GeneratedProduct where
  title : String
  description : String
  price : String
  variants : List ProductVariant
  features : List String
  image : String
  category : String
deriving DecidableEq

/-- The text fields parsed from the model response (the product minus
`image` and `category`). -/
structure ProductData where
  title : String
  description : String
  price : String
  variants : List ProductVariant
  features : List String
deriving DecidableEq

/-- A file attachment of a `generateText` response
(`{mediaType?, base64?, uint8Array?}`); `none` models an absent field and
`base64 = some ""` an empty (falsy) string. -/
structure GenFile where
  mediaType : Option String
  base64 : Option String
  uint8Array : Option (List Nat)

/-- Outcome of one `generateText` call: either the promise rejects
(`throws`) or it resolves with text and file attachments. -/
inductive GenCall where
  | throws
  | returns (text : String) (files : List GenFile)

/-- Environment of the generator: the gateway API key
(`AI_GATEWAY_API_KEY || VERCEL_AI_GATEWAY_KEY`, `none` or the empty string
being falsy), the behaviour of the external generation service indexed by
(category index, item index, attempt number), and the behaviour of
`JSON.parse` on the extracted block (`none` models a parse exception). -/
structure GenEnv where
  apiKey : Option String
  call : Nat → Nat → Nat → GenCall
  jsonParse : String → Option ProductData

/-- `!apiKey`: the gateway key is missing or empty. -/
def gatewayKeyMissing (env : GenEnv) : Bool :=
  env.apiKey.getD "" = ""

/-- The default variants used by both text-parsing fallbacks (lines 219–222
and 232–235). -/
def defaultVariants : List ProductVariant :=
  [{ title := "Standard", price := "99.99" }, { title := "Premium", price := "149.99" }]

/-- The default feature list of the text-parsing fallbacks. -/
def defaultFeatures : List String := ["High quality", "Durable", "Modern design"]

/-- `result.text.split('\n')[0]`. -/
def firstLine (s : String) : String :=
  String.mk (s.data.takeWhile (fun c => c ≠ '\n'))

/-- The match of the greedy regex `/\x7b[\s\S]*\x7d/`: the slice from the
first open brace to the last close brace, when the latter comes after the
former. -/
def jsonBlock (s : List Char) : Option (List Char) :=
  let t := s.dropWhile (fun c => c ≠ Char.ofNat 123)
  let u := (t.reverse.dropWhile (fun c => c ≠ Char.ofNat 125)).reverse
  if u = [] then none else some u

/-- Text-payload extraction (lines 206–239): locate the first balanced-brace
block and `JSON.parse` it; on a missing block fall back to a first-line
title (line 216), on a parse exception fall back to a synthetic title
(lines 227–239).  Neither fallback can fail. -/
def extractProductData (env : GenEnv) (text : String) (category : String) (i : Nat) :
    ProductData :=
  match jsonBlock text.data with
  | some block =>
    match env.jsonParse (String.mk block) with
    | some productData => productData
    | none =>
      { title := "Premium " ++ category ++ " " ++ toString (i + 1),
        description :=
          if text = "" then "A high-quality " ++ category ++ " with excellent features."
          else text,
        price := "99.99", variants := defaultVariants, features := defaultFeatures }
  | none =>
      { title :=
          if firstLine text = "" then "Premium " ++ category ++ " " ++ toString (i + 1)
          else firstLine text,
        description := text,
        price := "99.99", variants := defaultVariants, features := defaultFeatures }

/-- The synthesized SVG placeholder data URI (lines 261–263 and 304–306):
a labeled rectangle, base64-encoded. -/
def svgPlaceholder (category : String) : String :=
  "data:image/svg+xml;base64," ++
    String.mk (b64encode (utf8Bytes
      ("<svg width=\"400\" height=\"400\" xmlns=\"http://www.w3.org/2000/svg\"><rect width=\"400\" height=\"400\" fill=\"#f0f0f0\"/><text x=\"50%\" y=\"50%\" font-family=\"Arial\" font-size=\"20\" fill=\"#666\" text-anchor=\"middle\" dominant-baseline=\"middle\">"
        ++ category ++ "</text></svg>").data))

/-- `f.mediaType?.startsWith('image/')`. -/
def mediaIsImage (f : GenFile) : Bool :=
  match f.mediaType with
  | some mt => startsWithL "image/".data mt.data
  | none => false

/-- Build the data URI of the first image attachment (lines 247–257):
prefer the (truthy) `base64` field, then `uint8Array` re-encoded;
an attachment with neither leaves the URI empty. -/
def fileToDataUri (f : GenFile) : String :=
  if f.base64.getD "" ≠ "" then
    "data:" ++ f.mediaType.getD "" ++ ";base64," ++ f.base64.getD ""
  else
    match f.uint8Array with
    | some bytes => "data:" ++ f.mediaType.getD "" ++ ";base64," ++ String.mk (b64encode bytes)
    | none => ""

/-- Image selection (lines 241–264): first attachment whose media type
starts with `image/`; when none yields a non-empty URI, synthesize the SVG
placeholder. -/
def selectImage (files : List GenFile) (category : String) : String :=
  let imageFiles := files.filter mediaIsImage
  let uri :=
    match imageFiles with
    | [] => ""
    | f :: _ => fileToDataUri f
  if uri = "" then svgPlaceholder category else uri

/-- The fully synthetic fallback product pushed when the last attempt threw
(lines 296–308). -/
def fallbackProduct (category : String) (i : Nat) : GeneratedProduct :=
  { title := category ++ " " ++ toString (i + 1),
    description := "A high-quality " ++ category ++ " with excellent features and modern design.",
    price := "99.99",
    variants := [{ title := "Standard", price := "99.99" }],
    features := ["High quality", "Durable", "Modern design"],
    image := svgPlaceholder category,
    category := category }

/-- One pass of the retry loop of lines 82–311, entered with the value of
`attempts` after the `attempts++` of line 83 (so `attempt` is 1-based and
`maxRetries = 3`).  A thrown error (missing gateway key, line 167, or a
rejected `generateText` call) retries while `attempts < maxRetries` and
otherwise produces the synthetic fallback; a placeholder image retries
while `attempts < maxRetries` and is otherwise accepted as is. -/
def genTry (env : GenEnv) (category : String) (catIdx itemIdx : Nat) (attempt : Nat) :
    GeneratedProduct :=
  if gatewayKeyMissing env then
    if h : attempt < 3 then genTry env category catIdx itemIdx (attempt + 1)
    else fallbackProduct category itemIdx
  else
    match env.call catIdx itemIdx attempt with
    | GenCall.throws =>
      if h : attempt < 3 then genTry env category catIdx itemIdx (attempt + 1)
      else fallbackProduct category itemIdx
    | GenCall.returns text files =>
      let productData := extractProductData env text category itemIdx
      let imageDataUri := selectImage files category
      if isPlaceholderImage imageDataUri then
        if h : attempt < 3 then genTry env category catIdx itemIdx (attempt + 1)
        else
          { title := productData.title, description := productData.description,
            price := productData.price, variants := productData.variants,
            features := productData.features, image := imageDataUri, category := category }
      else
        { title := productData.title, description := productData.description,
          price := productData.price, variants := productData.variants,
          features := productData.features, image := imageDataUri, category := category }
termination_by 3 - attempt

/-- One unit of work ((category, index) pair): the retry loop starting at
attempt 1. -/
def genItem (env : GenEnv) (category : String) (catIdx itemIdx : Nat) : GeneratedProduct :=
  genTry env category catIdx itemIdx 1

/-- `generateProducts` (lines 64–322).  The outer loops iterate the
categories in order and, within a category, `for (let i = 0; i < count; i++)`;
for a rational `count` that loop runs `⌈count⌉₊` times.  The `sampleImage`
argument only enriches the prompt sent to the external service, whose
behaviour the `env.call` oracle already quantifies over.  The function never
throws: every per-attempt error is caught inside the loop. -/
def generateProducts (env : GenEnv) (organizedInput : OrganizedInput)
    (sampleImage : Option String) : List GeneratedProduct :=
  (organizedInput.categories.enum).flatMap (fun ci =>
    (List.range (Nat.ceil ci.2.count)).map (fun i => genItem env ci.2.category ci.1 i))

/-! ### Commerce record creation (`createShopifyProducts`, `src/unnamed/part_006`) -/

/-- A created commerce record (`ShopifyProduct` of the source). -/
structure ShopifyProduct where
  id : String
  title : String
  image : String
deriving DecidableEq

/-- One variant record of the create-product payload.  The constant
`inventory_management: null` field is omitted from the model. -/
structure ShopifyVariantPayload where
  option1 : String
  price : String
  position : Nat
deriving DecidableEq

/-- The product payload sent to `POST /products.json`; `options = []`
models an absent `options` key. -/
structure ShopifyProductPayload where
  title : String
  body_html : String
  vendor : String
  product_type : String
  variants : List ShopifyVariantPayload
  options : List String
deriving DecidableEq

/-- Outcome of one `POST /products.json` call: the fetch throws, or it
returns a non-2xx response, or it returns parsed JSON whose
`product?.id` is `id` (a JS number, `none` when absent) and whose
`product.title` is `title`. -/
inductive CreateOutcome where
  | throws
  | httpError (status : Nat) (body : String)
  | ok (id : Option Nat) (title : String)

/-- Outcome of one `POST /products/{id}/images.json` call: the fetch throws
or returns with `response.ok = ok`. -/
inductive UploadOutcome where
  | throws
  | resp (ok : Bool)

/-- Shopify-side environment: credentials as read from the process
environment at stage entry (`none` models an unset variable; the empty
string is set but falsy), plus the response oracles indexed by the
position of the record in the stage's iteration. -/
structure ShopifyEnv where
  shopifyDomain : Option String
  accessToken : Option String
  createResp : Nat → CreateOutcome
  uploadResp : Nat → UploadOutcome

/-- `!shopifyDomain || !accessToken`. -/
def shopifyCredsMissing (env : ShopifyEnv) : Bool :=
  env.shopifyDomain.getD "" = "" || env.accessToken.getD "" = ""

/-- The credential error thrown by `createShopifyProducts` (part_006,
lines 18–22), template holes included. -/
def createCredMsg (env : ShopifyEnv) : String :=
  "Shopify credentials not configured. Please set SHOPIFY_STORE_DOMAIN and SHOPIFY_ACCESS_TOKEN environment variables.\n      Found SHOPIFY_STORE_DOMAIN: "
    ++ (if env.shopifyDomain.getD "" = "" then "no" else "yes")
    ++ "\n      Found SHOPIFY_ACCESS_TOKEN: "
    ++ (if env.accessToken.getD "" = "" then "no" else "yes")

/-- The credential error thrown by `uploadProductImages` (part_005,
lines 165–169). -/
def uploadCredMsg : String :=
  "Shopify credentials not configured. Please set SHOPIFY_STORE_DOMAIN and SHOPIFY_ACCESS_TOKEN environment variables."

/-- The variant records of the create-product payload (part_006,
lines 36–61).  Note the faithful translation of the source bug: the
`seenValues` set is created *inside* the `map` callback, so it is empty on
every iteration and the numeric-suffix de-duplication branch can never be
taken. -/
def buildVariants (product : GeneratedProduct) : List ShopifyVariantPayload :=
  if product.variants.length > 0 then
    product.variants.enum.map (fun p =>
      let index := p.1
      let variant := p.2
      let optionValue :=
        if variant.title = "" then "Option " ++ toString (index + 1) else variant.title
      let seenValues : List String := []
      let uniqueOptionValue :=
        if seenValues.contains optionValue then optionValue ++ " " ++ toString (index + 1)
        else optionValue
      { option1 := uniqueOptionValue, price := variant.price, position := index + 1 })
  else
    [{ option1 := "Default",
       price := if product.price = "" then "0.00" else product.price,
       position := 1 }]

/-- `description.replace(/\n/g, '</p><p>')` wrapped in a paragraph
(part_006, line 88). -/
def paragraphize (s : String) : String :=
  "<p>" ++ String.mk (s.data.flatMap (fun c => if c = '\n' then "</p><p>".data else [c])) ++ "</p>"

/-- The create-product payload of part_006, lines 71–98. -/
def productPayload (product : GeneratedProduct) : ShopifyProductPayload :=
  { title := product.title,
    body_html := paragraphize product.description,
    vendor := "AI Generated",
    product_type := product.category,
    variants := buildVariants product,
    options := if product.variants.length > 0 then ["Variant"] else [] }

/-- The per-product loop of `createShopifyProducts` (lines 30–163).  Every
failure of a single create call — a rejected fetch, a non-2xx response
(whose typed 401/422/generic errors are thrown and immediately caught by
the per-item `catch`), a response without an id, or a falsy id `0` — skips
the item and continues; a success appends the created record, carrying the
item's image forward. -/
def createLoop (env : ShopifyEnv) : List GeneratedProduct → Nat → List ShopifyProduct
  | [], _ => []
  | product :: rest, idx =>
    match env.createResp idx with
    | CreateOutcome.throws => createLoop env rest (idx + 1)
    | CreateOutcome.httpError _ _ => createLoop env rest (idx + 1)
    | CreateOutcome.ok none _ => createLoop env rest (idx + 1)
    | CreateOutcome.ok (some productId) title =>
      if productId = 0 then createLoop env rest (idx + 1)
      else
        { id := Nat.repr productId, title := title, image := product.image }
          :: createLoop env rest (idx + 1)

/-- `createShopifyProducts` (part_006, lines 9–166): throws only when the
credentials are missing, before the loop; otherwise returns the subset of
successfully created records in order. -/
def createShopifyProducts (env : ShopifyEnv) (products : List GeneratedProduct) :
    Except String (List ShopifyProduct) :=
  if shopifyCredsMissing env then Except.error (createCredMsg env)
  else Except.ok (createLoop env products 0)

/-! ### Image publication (`uploadProductImages`, part_005 lines 157–243) -/

/-- The observable content of one attempted image-upload call: the record
id, the stripped base64 attachment and the inferred file extension (the
`Date.now()`-derived filename component is clock-dependent and omitted). -/
structure UploadPayloadModel where
  productId : String
  attachment : String
  extension : String
deriving DecidableEq

/-- `imageData.replace(/^data:image\/[^;]+;base64,/, '')`: strip the data
URI head when the anchored pattern matches in full, otherwise leave the
string unchanged. -/
def stripDataImage (s : List Char) : List Char :=
  if startsWithL "data:image/".data s then
    let rest := s.drop 11
    let mime := rest.takeWhile (fun c => c ≠ ';')
    if mime = [] then s
    else if startsWithL ";base64,".data (rest.drop mime.length) then
      rest.drop (mime.length + 8)
    else s
  else s

/-- Lines 183–190: under `startsWith('data:image/')` apply the anchored
replace; otherwise, when the string contains `base64,`, keep everything
after its first occurrence; otherwise leave the string as is. -/
def extractAttachment (image : String) : String :=
  if startsWithL "data:image/".data image.data then
    String.mk (stripDataImage image.data)
  else if containsL "base64,".data image.data then
    String.mk (afterFirst "base64,".data image.data)
  else image

/-- The capture of the first match of `/data:image\/([^;]+)/` in `s`. -/
def mimeCapture : List Char → Option (List Char)
  | [] => none
  | c :: rest =>
    if startsWithL "data:image/".data (c :: rest) then
      let m := ((c :: rest).drop 11).takeWhile (fun ch => ch ≠ ';')
      if m = [] then mimeCapture rest else some m
    else mimeCapture rest

/-- The extension inference of lines 196–212 (`svg` is deliberately coerced
to `png`). -/
def inferExtension (image : String) : String :=
  match mimeCapture image.data with
  | none => "png"
  | some m =>
    if containsL "jpeg".data m || containsL "jpg".data m then "jpg"
    else if containsL "png".data m then "png"
    else if containsL "webp".data m then "webp"
    else if containsL "svg".data m then "png"
    else "png"

/-- The per-record preparation of lines 176–223: skip records with an empty
image or an empty stripped attachment; otherwise describe the upload call
that will be issued. -/
def uploadAttempt (product : ShopifyProduct) : Option UploadPayloadModel :=
  if product.image = "" then none
  else
    let imageData := extractAttachment product.image
    if imageData = "" then none
    else some { productId := product.id, attachment := imageData,
                extension := inferExtension product.image }

/-- The upload loop of lines 174–242: a skipped record issues no call; an
attempted call is recorded in the trace whether the fetch throws, fails or
succeeds — every per-record failure is swallowed and iteration continues. -/
def uploadLoop (env : ShopifyEnv) : List ShopifyProduct → Nat → List UploadPayloadModel
  | [], _ => []
  | product :: rest, idx =>
    match uploadAttempt product with
    | none => uploadLoop env rest (idx + 1)
    | some payload =>
      match env.uploadResp idx with
      | UploadOutcome.throws => payload :: uploadLoop env rest (idx + 1)
      | UploadOutcome.resp _ => payload :: uploadLoop env rest (idx + 1)

/-- `uploadProductImages` (part_005, lines 157–243).  The source returns
`void`; the model returns the trace of attempted upload calls as its
observable effect.  It throws only when the credentials are missing,
checked once before the loop. -/
def uploadProductImages (env : ShopifyEnv) (products : List ShopifyProduct) :
    Except String (List UploadPayloadModel) :=
  if shopifyCredsMissing env then Except.error uploadCredMsg
  else Except.ok (uploadLoop env products 0)

/-! ### Orchestration (`productGeneratorWorkflow`, part_005 lines 18–153) -/

/-- `WorkflowResult` of part_005; `errors = none` models the `undefined`
of `errors.length > 0 ? errors : undefined`. -/
structure WorkflowResult where
  success : Bool
  totalProducts : ℚ
  createdProducts : List ShopifyProduct
  errors : Option (List String)
deriving DecidableEq

/-- The orchestrator body with the four stages as parameters.  Each stage
call sits in its own `try`/`catch`; the result type `Except String
WorkflowResult` makes an escaped exception representable (`Except.error`),
and the fact that the body never constructs it is exactly the
"no raw exception escapes" design.  `genStep` returning `Except.ok none`
models `generateProducts` resolving to `null`/`undefined`, which the
orchestrator turns into a step-2 failure (lines 91–94).  At the step-3
`catch` the local `createdProducts` is still `[]`, so
`success: createdProducts.length > 0` is written with that value. -/
def workflowBody (categories : List RawCategory)
    (genStep : OrganizedInput → Except String (Option (List GeneratedProduct)))
    (createStep : List GeneratedProduct → Except String (List ShopifyProduct))
    (uploadStep : List ShopifyProduct → Except String (List UploadPayloadModel)) :
    Except String WorkflowResult :=
  match organizeInput categories with
  | Except.error e =>
    Except.ok { success := false, totalProducts := 0, createdProducts := [],
                errors := some ["Step 1 failed: " ++ e] }
  | Except.ok organizedInput =>
    match genStep organizedInput with
    | Except.error e =>
      Except.ok { success := false, totalProducts := organizedInput.totalProducts,
                  createdProducts := [], errors := some ["Step 2 failed: " ++ e] }
    | Except.ok none =>
      Except.ok { success := false, totalProducts := organizedInput.totalProducts,
                  createdProducts := [],
                  errors := some ["Step 2 failed: generateProducts returned null or undefined"] }
    | Except.ok (some generatedProducts) =>
      match createStep generatedProducts with
      | Except.error e =>
        Except.ok { success := decide ((([] : List ShopifyProduct)).length > 0),
                    totalProducts := organizedInput.totalProducts,
                    createdProducts := [], errors := some ["Step 3 failed: " ++ e] }
      | Except.ok createdProducts =>
        match uploadStep createdProducts with
        | Except.error e =>
          Except.ok { success := true, totalProducts := organizedInput.totalProducts,
                      createdProducts := createdProducts,
                      errors := some ["Step 4 failed: " ++ e] }
        | Except.ok _ =>
          Except.ok { success := true, totalProducts := organizedInput.totalProducts,
                      createdProducts := createdProducts, errors := none }

/-- The full pipeline environment.  `createEnv` and `uploadEnv` are the
credential/response snapshots read by stages 3 and 4 respectively — the
source reads `process.env` once per stage invocation, and the two stages
may execute in different processes under the durable-workflow runtime. -/
structure WorkflowEnv where
  genEnv : GenEnv
  createEnv : ShopifyEnv
  uploadEnv : ShopifyEnv

/-- `productGeneratorWorkflow` (part_005, lines 18–153): the concrete
composition of the four embedded stages. -/
def productGeneratorWorkflow (env : WorkflowEnv) (categories : List RawCategory)
    (sampleImage : Option String) : Except String WorkflowResult :=
  workflowBody categories
    (fun organizedInput =>
      Except.ok (some (generateProducts env.genEnv organizedInput sampleImage)))
    (fun generatedProducts => createShopifyProducts env.createEnv generatedProducts)
    (fun createdProducts => uploadProductImages env.uploadEnv createdProducts)

/-! ## Claim C1 — variant option de-duplication in the create payload

The source *intends* to de-duplicate variant option values (its comments
say "Ensure variant option values are unique to avoid conflicts" and
"Make variant option unique if duplicates exist", and its 422 handler
lists duplicate variant titles as the first thing to fix), but the
`seenValues` set is created inside the `map` callback, so it is empty on
every iteration and the suffix branch is dead code.  Two variants sharing
a title therefore produce two identical `option1` values. -/

/-- The failing input for claim C1: a generated item with two variants
that share the title `"Red"`. -/
def c1Product : GeneratedProduct :=
  { title := "Tee", description := "d", price := "20.00",
    variants := [⟨"Red", "10.00"⟩, ⟨"Red", "12.00"⟩],
    features := [], image := "", category := "Apparel" }

/-- Claim C1: evaluating the payload builder of `createShopifyProducts` at
the failing input shows the two variant records carry the *same* display
option value `"Red"` twice — the numeric-suffix de-duplication promised by
the spec (and by the source's own comments) never fires — while the prices
are carried through verbatim. -/
theorem c1_duplicate_option_values :
    (buildVariants c1Product).map (fun v => v.option1) = ["Red", "Red"] ∧
    (buildVariants c1Product).map (fun v => v.price) = ["10.00", "12.00"] ∧
    productPayload c1Product =
      { title := "Tee", body_html := "<p>d</p>", vendor := "AI Generated",
        product_type := "Apparel", variants := buildVariants c1Product,
        options := ["Variant"] } :=
  ⟨by decide, by decide, by decide⟩

/-! ## Claim C2 — normalizer filtering

The source filter checks `typeof count === 'number'` and the range
`1 ≤ count ≤ 100`, but performs **no integrality check**, so a count of
`5/2` survives; and a whitespace-only category name is a truthy string, so
it survives and trims to the empty string. -/

/-- The entries kept by the normalizer's filter. -/
def keptEntries (categories : List RawCategory) : List RawCategory :=
  categories.filter validCategory

/-- Trimming map applied to a surviving entry. -/
def normalizeEntry (cat : RawCategory) : CategoryInput :=
  { category := jsTrim (cat.category.getD ""), count := cat.count.getD 0 }

/-- Spec-side description of the normalizer, amended to what the code
does: entries survive exactly when the category is a non-empty string
(possibly whitespace-only) and the count is a number in `[1, 100]` (not
necessarily an integer); zero survivors fail with the validation error;
otherwise the survivors are returned in order, trimmed, with their count
sum. -/
def normalizerSpec (categories : List RawCategory) : Prop :=
  (keptEntries categories = [] →
    organizeInput categories =
      Except.error "No valid categories found. Each category needs a name and count between 1-100") ∧
  (keptEntries categories ≠ [] →
    organizeInput categories = Except.ok
      { categories := (keptEntries categories).map normalizeEntry,
        totalProducts := ((keptEntries categories).map (fun cat => cat.count.getD 0)).sum }) ∧
  ∀ cat ∈ keptEntries categories,
    ∃ s q, cat.category = some s ∧ s ≠ "" ∧ cat.count = some q ∧ 1 ≤ q ∧ q ≤ 100

/-- Claim C2, counterexample: an entry with the non-integer count `5/2`
and an entry whose name is the whitespace-only string `" "` both survive
the filter — the claim says the first is filtered out and that no
survivor trims to an empty name, so the run should instead have kept only
well-formed entries (or failed).  The code returns a successful batch
containing both. -/
theorem c2_counterexample :
    organizeInput [⟨some " ", some 1⟩, ⟨some "Chairs", some (5/2)⟩] =
      Except.ok ⟨[⟨"", 1⟩, ⟨"Chairs", 5/2⟩], 7/2⟩ ∧
    (5/2 : ℚ).den = 2 ∧ jsTrim " " = "" := by
  refine ⟨?_, ?_, by decide⟩
  · have hv1 : validCategory ⟨some " ", some 1⟩ = true := by
      simp [validCategory]
    have hv2 : validCategory ⟨some "Chairs", some (5/2)⟩ = true := by
      simp [validCategory]
      norm_num
    rw [organizeInput]
    simp [List.filter, hv1, hv2, jsTrim]
    norm_num
  · rw [show (5/2 : ℚ) = Rat.divInt 5 2 by rw [Rat.divInt_eq_div]; norm_num]
    decide

/-- Claim C2 (amended): for an input of length 1..10, the normalizer keeps
exactly the entries with a non-empty string name and a numeric count in
`[1, 100]` — non-integer counts and whitespace-only names included — and
fails with the validation error exactly when no entry survives. -/
theorem c2_normalizer_filter (categories : List RawCategory)
    (h1 : categories ≠ []) (h2 : categories.length ≤ 10) :
    normalizerSpec categories := by
  have hlen0 : ¬ categories.length = 0 := by
    simpa [List.length_eq_zero] using h1
  have hlen10 : ¬ categories.length > 10 := by omega
  refine ⟨?_, ?_, ?_⟩
  · intro hk
    rw [organizeInput]
    simp only [if_neg hlen0, if_neg hlen10]
    rw [if_pos]
    simpa [keptEntries] using hk
  · intro hk
    rw [organizeInput]
    simp only [if_neg hlen0, if_neg hlen10]
    rw [if_neg]
    · rfl
    · simp only [List.length_eq_zero]
      simpa [keptEntries] using hk
  · intro cat hmem
    have hv : validCategory cat = true := (List.mem_filter.mp hmem).2
    rw [validCategory] at hv
    rcases hcat : cat.category with _ | s
    · rw [hcat] at hv
      simp at hv
    · rw [hcat] at hv
      rcases hcount : cat.count with _ | q
      · rw [hcount] at hv
        by_cases hs : s = "" <;> simp [hs] at hv
      · rw [hcount] at hv
        by_cases hs : s = ""
        · simp [hs] at hv
        · refine ⟨s, q, rfl, hs, rfl, ?_, ?_⟩ <;> simp [hs] at hv <;> tauto

/-- Witness for the amended claim C2 at a concrete well-formed input. -/
theorem c2_normalizer_filter_witness :
    ([⟨some "Chairs", some 1⟩] : List RawCategory) ≠ [] ∧
    ([⟨some "Chairs", some 1⟩] : List RawCategory).length ≤ 10 ∧
    normalizerSpec [⟨some "Chairs", some 1⟩] :=
  ⟨by decide, by decide, c2_normalizer_filter _ (by decide) (by decide)⟩

/-! ## Claims C4 and C10 — placeholder detection -/

/-- The uniformity condition of the buffer analysis, spec-side: strictly
more than 80% of the sampled bytes (the first `min 100 len` decoded bytes)
lie within 10 of the sample mean. -/
def uniformRateHigh (buffer : List Nat) : Prop :=
  ((uniformCount (buffer.take (min 100 buffer.length)) : ℚ)) /
    (((buffer.take (min 100 buffer.length)).length : ℚ)) > 8 / 10

/-- Spec-side placeholder classification, amended to the code's strict
threshold: a data URI is a placeholder iff it carries the synthesized SVG
marker, or its decoded payload is under 1024 bytes, or the sampled bytes
are near-uniform in the strict (> 80%) sense. -/
def placeholderSpec (uri : String) : Prop :=
  containsL "data:image/svg+xml".data uri.data = true ∨
  ∃ d, base64Capture uri.data = some d ∧
    ((b64decode d).length < 1024 ∨ uniformRateHigh (b64decode d))

/-- The buffer analysis succeeds iff the buffer is short or the sampled
bytes are near-uniform in the strict sense. -/
lemma bufferCheck_iff (buffer : List Nat) :
    bufferCheck buffer = true ↔ buffer.length < 1024 ∨ uniformRateHigh buffer := by
  rw [bufferCheck, uniformRateHigh]
  by_cases h : buffer.length < 1024
  · simp [h]
  · simp [h]

/-- Claim C4, counterexample: a 1024-byte buffer in which *exactly* 80% of
the 100 sampled bytes lie within 10 of the sample mean (80 bytes of value
100 and 20 of value 140; mean 108).  The claim's "at least 80%" threshold
classifies it as a placeholder, but the code's strict `> 0.8` comparison
does not. -/
def c4Buffer : List Nat :=
  List.replicate 80 100 ++ List.replicate 20 140 ++ List.replicate 924 0

/-- The first 100 bytes of the counterexample buffer. -/
def c4Sample : List Nat := List.replicate 80 100 ++ List.replicate 20 140

lemma c4Sample_length : c4Sample.length = 100 := by
  rw [c4Sample, List.length_append, List.length_replicate, List.length_replicate]

lemma c4Buffer_length : c4Buffer.length = 1024 := by
  rw [c4Buffer, List.length_append, List.length_append, List.length_replicate,
    List.length_replicate, List.length_replicate]

lemma c4Buffer_take : c4Buffer.take (min 100 c4Buffer.length) = c4Sample := by
  have h : c4Buffer = c4Sample ++ List.replicate 924 0 := by
    rw [c4Buffer, c4Sample, List.append_assoc]
  rw [c4Buffer_length, show min 100 1024 = 100 from by norm_num, h,
    List.take_left' c4Sample_length]

lemma c4Sample_avg : sampleAvg c4Sample = 108 := by
  rw [sampleAvg, c4Sample, List.map_append, List.map_replicate, List.map_replicate,
    List.sum_append, List.sum_replicate, List.sum_replicate, List.length_append,
    List.length_replicate, List.length_replicate, nsmul_eq_mul, nsmul_eq_mul]
  norm_num

lemma c4Sample_uniformCount : uniformCount c4Sample = 80 := by
  rw [uniformCount, c4Sample_avg]
  rw [show c4Sample = List.replicate 80 100 ++ List.replicate 20 140 from rfl]
  rw [List.filter_append, List.filter_replicate, List.filter_replicate]
  rw [if_pos (by norm_num), if_neg (by norm_num)]
  rw [List.length_append, List.length_replicate, List.length_nil]

/-- Claim C4, counterexample: at `c4Buffer` the sampled within-10 rate is
exactly 80%, yet the detector does not classify the buffer as a
placeholder — refuting the claim's "at least 80%" reading and its
"exactly 80% is a placeholder" particular. -/
theorem c4_counterexample :
    bufferCheck c4Buffer = false ∧
    c4Buffer.length = 1024 ∧
    (c4Buffer.take (min 100 c4Buffer.length)).length = 100 ∧
    (uniformCount (c4Buffer.take (min 100 c4Buffer.length)) : ℚ) =
      (8 / 10) * ((c4Buffer.take (min 100 c4Buffer.length)).length : ℚ) := by
  have htake := c4Buffer_take
  have hnot : ¬ (c4Buffer.length < 1024 ∨ uniformRateHigh c4Buffer) := by
    rintro (h | h)
    · rw [c4Buffer_length] at h
      omega
    · rw [uniformRateHigh, htake, c4Sample_uniformCount, c4Sample_length] at h
      norm_num at h
  refine ⟨?_, c4Buffer_length, by rw [htake, c4Sample_length], ?_⟩
  · cases hbc : bufferCheck c4Buffer
    · rfl
    · exact absurd ((bufferCheck_iff c4Buffer).mp hbc) hnot
  · rw [htake, c4Sample_uniformCount, c4Sample_length]
    norm_num

/-- Claim C4 (amended): the detector classifies a data URI as a
placeholder iff it carries the SVG marker, or decodes to fewer than 1024
bytes, or *strictly more than* 80% of the sampled bytes lie within 10 of
the sample mean; and a solid-color 2000-byte buffer is always classified
as a placeholder. -/
theorem c4_placeholder_rule :
    (∀ uri : String, isPlaceholderImage uri = true ↔ placeholderSpec uri) ∧
    (∀ v : Nat, bufferCheck (List.replicate 2000 v) = true) := by
  constructor
  · intro uri
    rw [isPlaceholderImage, placeholderSpec]
    by_cases hsvg : containsL "data:image/svg+xml".data uri.data
    · simp [hsvg]
    · simp only [Bool.not_eq_true] at hsvg
      rw [if_neg (by simp [hsvg])]
      cases hc : base64Capture uri.data with
      | none => simp [hsvg]
      | some d => simp [hsvg, bufferCheck_iff]
  · intro v
    rw [bufferCheck_iff]
    right
    rw [uniformRateHigh]
    have htake : (List.replicate 2000 v).take (min 100 (List.replicate 2000 v).length) =
        List.replicate 100 v := by
      rw [List.length_replicate, show min 100 2000 = 100 from by norm_num,
        List.take_replicate, show min 100 2000 = 100 from by norm_num]
    rw [htake]
    have havg : sampleAvg (List.replicate 100 v) = (v : ℚ) := by
      rw [sampleAvg, List.map_replicate, List.sum_replicate, List.length_replicate,
        nsmul_eq_mul]
      push_cast
      rw [mul_comm, mul_div_assoc, div_self (by norm_num : (100 : ℚ) ≠ 0), mul_one]
    have hcount : uniformCount (List.replicate 100 v) = 100 := by
      rw [uniformCount, havg, List.filter_replicate]
      rw [if_pos (by norm_num)]
      rw [List.length_replicate]
    rw [hcount, List.length_replicate]
    norm_num

/-! ## Claim C10 — unanalyzable images are accepted -/

/-- When the string has no `base64,` occurrence at all, the regex capture
fails. -/
lemma base64Capture_eq_none (s : List Char)
    (h : containsL "base64,".data s = false) : base64Capture s = none := by
  induction s with
  | nil => rfl
  | cons c rest ih =>
    rw [containsL, Bool.or_eq_false_iff] at h
    rw [base64Capture, if_neg (by simp [h.1])]
    exact ih h.2

/-- Claim C10: an input with neither the SVG marker nor any `base64,`
section cannot be decoded for analysis, and `isPlaceholderImage` accepts
it as valid (returns `false`), so the quality-gate retry is never
triggered by it. -/
theorem c10_unanalyzable_accepted (uri : String)
    (h1 : containsL "data:image/svg+xml".data uri.data = false)
    (h2 : containsL "base64,".data uri.data = false) :
    isPlaceholderImage uri = false := by
  rw [isPlaceholderImage, if_neg (by simp [h1]), base64Capture_eq_none _ h2]

/-- Witness for claim C10 at the concrete input `"hello"`. -/
theorem c10_unanalyzable_accepted_witness :
    containsL "data:image/svg+xml".data "hello".data = false ∧
    containsL "base64,".data "hello".data = false ∧
    isPlaceholderImage "hello" = false :=
  ⟨by decide, by decide, c10_unanalyzable_accepted "hello" (by decide) (by decide)⟩

/-! ## Claim C5 — the generator always yields exactly `totalCount` items -/

/-- The spec's `OrganizedBatch` invariant: 1–10 categories, every count an
integer in `[1, 100]`, and `totalCount` the sum of the counts. -/
def ValidBatch (oi : OrganizedInput) : Prop :=
  (∀ cat ∈ oi.categories, cat.count.den = 1 ∧ 1 ≤ cat.count ∧ cat.count ≤ 100) ∧
  oi.totalProducts = (oi.categories.map (fun cat => cat.count)).sum ∧
  1 ≤ oi.categories.length ∧ oi.categories.length ≤ 10

/-- An integer-valued rational at least 1 round-trips through `Nat.ceil`. -/
lemma ceil_cast_eq_self (q : ℚ) (hden : q.den = 1) (hq : 1 ≤ q) :
    ((Nat.ceil q : ℕ) : ℚ) = q := by
  have hnum : q = (q.num : ℚ) := by
    conv_lhs => rw [← Rat.num_div_den q]
    rw [hden]
    norm_num
  have hnn : 0 ≤ q.num := by
    rw [Rat.num_nonneg]
    linarith
  rw [hnum, Nat.ceil_intCast]
  exact_mod_cast congrArg (Int.cast : ℤ → ℚ) (Int.toNat_of_nonneg hnn)

/-- Claim C5: for every valid batch and every behaviour of the external
generation service (`env.call` may throw on every attempt, every image may
be classified placeholder, `JSON.parse` may always fail), the generator
produces exactly `totalProducts` items — one per requested unit, real or
synthetic — and never fails the batch. -/
theorem c5_generator_count (env : GenEnv) (oi : OrganizedInput) (sampleImage : Option String)
    (h : ValidBatch oi) :
    ((generateProducts env oi sampleImage).length : ℚ) = oi.totalProducts := by
  obtain ⟨hmem, htot, -⟩ := h
  rw [htot, generateProducts, List.flatMap_def, List.length_flatten, List.map_map]
  have h1 : (List.map (List.length ∘ fun ci : Nat × CategoryInput =>
      (List.range (Nat.ceil ci.2.count)).map (fun i => genItem env ci.2.category ci.1 i))
        oi.categories.enum) =
      List.map ((fun cat : CategoryInput => Nat.ceil cat.count) ∘ Prod.snd)
        oi.categories.enum := by
    apply List.map_congr_left
    intro a _
    simp
  rw [h1, ← List.map_map, List.enum_map_snd, Nat.cast_list_sum, List.map_map]
  refine congrArg List.sum (List.map_congr_left ?_)
  intro cat hcat
  exact ceil_cast_eq_self cat.count (hmem cat hcat).1 (hmem cat hcat).2.1

/-! ### Shared concrete fixtures for the witnesses -/

/-- A generation environment whose every call throws and whose key is
absent. -/
def throwingGenEnv : GenEnv :=
  { apiKey := none, call := fun _ _ _ => GenCall.throws, jsonParse := fun _ => none }

/-- A Shopify environment with no credentials configured. -/
def noCredsShopifyEnv : ShopifyEnv :=
  { shopifyDomain := none, accessToken := none,
    createResp := fun _ => CreateOutcome.throws, uploadResp := fun _ => UploadOutcome.throws }

/-- A Shopify environment with credentials and an always-succeeding create
oracle. -/
def credsShopifyEnv : ShopifyEnv :=
  { shopifyDomain := some "demo.myshopify.com", accessToken := some "token",
    createResp := fun _ => CreateOutcome.ok (some 1) "T",
    uploadResp := fun _ => UploadOutcome.resp true }

/-- A concrete well-formed input: two chairs. -/
def catsChairs : List RawCategory := [⟨some "Chairs", some 2⟩]

/-- The batch the normalizer produces from `catsChairs`. -/
def oiChairs : OrganizedInput := ⟨[⟨"Chairs", 2⟩], 2⟩

lemma organize_catsChairs : organizeInput catsChairs = Except.ok oiChairs := by
  have hv : validCategory ⟨some "Chairs", some 2⟩ = true := by
    simp [validCategory]
    norm_num
  have ht : jsTrim "Chairs" = "Chairs" := by decide
  rw [catsChairs, organizeInput]
  norm_num [List.filter, hv, ht, oiChairs]

lemma validBatch_oiChairs : ValidBatch oiChairs := by
  refine ⟨?_, ?_, by decide, by decide⟩
  · intro cat hcat
    rw [oiChairs, List.mem_singleton] at hcat
    rw [hcat]
    refine ⟨by decide, by decide, by decide⟩
  · rw [oiChairs]
    norm_num

/-- Witness for claim C5 at the concrete two-chairs batch and the
always-throwing generation environment. -/
theorem c5_generator_count_witness :
    ValidBatch oiChairs ∧
    ((generateProducts throwingGenEnv oiChairs none).length : ℚ) = oiChairs.totalProducts :=
  ⟨validBatch_oiChairs, c5_generator_count throwingGenEnv oiChairs none validBatch_oiChairs⟩

/-! ## Claim C6 — the orchestrator never lets an exception escape -/

/-- Claim C6: for every input and every behaviour of the stage functions —
any of them may return any error — the orchestrator produces a structured
`WorkflowResult`; the `Except.error` constructor of its result type (the
model of an escaped exception) is never produced, because every stage call
sits inside a `try`/`catch` that converts failure into a result. -/
theorem c6_no_raw_exception :
    (∀ (cats : List RawCategory)
      (genStep : OrganizedInput → Except String (Option (List GeneratedProduct)))
      (createStep : List GeneratedProduct → Except String (List ShopifyProduct))
      (uploadStep : List ShopifyProduct → Except String (List UploadPayloadModel)),
      ∃ r : WorkflowResult, workflowBody cats genStep createStep uploadStep = Except.ok r) ∧
    (∀ (env : WorkflowEnv) (cats : List RawCategory) (sampleImage : Option String),
      ∃ r : WorkflowResult, productGeneratorWorkflow env cats sampleImage = Except.ok r) := by
  have hbody : ∀ cats genStep createStep uploadStep,
      ∃ r : WorkflowResult, workflowBody cats genStep createStep uploadStep = Except.ok r := by
    intro cats genStep createStep uploadStep
    rcases h1 : organizeInput cats with e | oi
    · exact ⟨_, by simp only [workflowBody, h1]; rfl⟩
    · rcases h2 : genStep oi with e | og
      · exact ⟨_, by simp only [workflowBody, h1, h2]; rfl⟩
      · rcases og with _ | gp
        · exact ⟨_, by simp only [workflowBody, h1, h2]; rfl⟩
        · rcases h3 : createStep gp with e | cp
          · exact ⟨_, by simp only [workflowBody, h1, h2, h3]; rfl⟩
          · rcases h4 : uploadStep cp with e | t
            · exact ⟨_, by simp only [workflowBody, h1, h2, h3, h4]; rfl⟩
            · exact ⟨_, by simp only [workflowBody, h1, h2, h3, h4]; rfl⟩
  exact ⟨hbody, fun env cats img => by
    rw [productGeneratorWorkflow]
    exact hbody _ _ _ _⟩

/-! ## Claim C7 — normalize failure is terminal with the exact result -/

/-- Claim C7: when normalization fails, the pipeline is terminal at stage 1
— the result is the same for every behaviour of the later stages — and it
is exactly `{success: false, totalRequested: 0, created: [], errors:
[normalize error]}`; in particular the empty input fails with the
validation error before any stage runs. -/
theorem c7_normalize_failure_terminal :
    (∀ (cats : List RawCategory)
      (genStep : OrganizedInput → Except String (Option (List GeneratedProduct)))
      (createStep : List GeneratedProduct → Except String (List ShopifyProduct))
      (uploadStep : List ShopifyProduct → Except String (List UploadPayloadModel))
      (e : String),
      organizeInput cats = Except.error e →
      workflowBody cats genStep createStep uploadStep = Except.ok
        { success := false, totalProducts := 0, createdProducts := [],
          errors := some ["Step 1 failed: " ++ e] }) ∧
    (∀ (env : WorkflowEnv) (cats : List RawCategory) (sampleImage : Option String) (e : String),
      organizeInput cats = Except.error e →
      productGeneratorWorkflow env cats sampleImage = Except.ok
        { success := false, totalProducts := 0, createdProducts := [],
          errors := some ["Step 1 failed: " ++ e] }) ∧
    organizeInput [] = Except.error "Categories array is required and cannot be empty" := by
  have hbody : ∀ cats
      (genStep : OrganizedInput → Except String (Option (List GeneratedProduct)))
      (createStep : List GeneratedProduct → Except String (List ShopifyProduct))
      (uploadStep : List ShopifyProduct → Except String (List UploadPayloadModel))
      (e : String),
      organizeInput cats = Except.error e →
      workflowBody cats genStep createStep uploadStep = Except.ok
        { success := false, totalProducts := 0, createdProducts := [],
          errors := some ["Step 1 failed: " ++ e] } := by
    intro cats genStep createStep uploadStep e h
    rw [workflowBody, h]
  exact ⟨hbody, fun env cats img e h => by
    rw [productGeneratorWorkflow]
    exact hbody _ _ _ _ e h, rfl⟩

/-- Witness for claim C7: the empty input, with arbitrary concrete stage
environments. -/
theorem c7_normalize_failure_terminal_witness :
    organizeInput [] = Except.error "Categories array is required and cannot be empty" ∧
    productGeneratorWorkflow ⟨throwingGenEnv, noCredsShopifyEnv, noCredsShopifyEnv⟩ [] none =
      Except.ok
        { success := false, totalProducts := 0, createdProducts := [],
          errors := some
            ["Step 1 failed: " ++ "Categories array is required and cannot be empty"] } :=
  ⟨c7_normalize_failure_terminal.2.2,
    c7_normalize_failure_terminal.2.1 ⟨throwingGenEnv, noCredsShopifyEnv, noCredsShopifyEnv⟩
      [] none _ c7_normalize_failure_terminal.2.2⟩

/-! ## Claim C3 — create-stage throw -/

/-- Claim C3: if the Create stage throws, the orchestrator terminates with
`{success: created.length > 0, totalRequested: batch total, created: the
records created before the throw, errors: [create error]}`.  In the code,
`createShopifyProducts` can only throw at the credential check before its
loop (every per-item failure is swallowed), so the records created before
the throw are always `[]`, written below as the orchestrator writes it:
`success` is the emptiness test of that list.  The claim's "success true
whenever partial records were created before the throw" is the final
conditional — it follows from the `success` formula, though its antecedent
is never realized by this code. -/
theorem c3_create_throw_result (env : WorkflowEnv) (cats : List RawCategory)
    (sampleImage : Option String) (oi : OrganizedInput) (e : String)
    (h1 : organizeInput cats = Except.ok oi)
    (h2 : createShopifyProducts env.createEnv
      (generateProducts env.genEnv oi sampleImage) = Except.error e) :
    productGeneratorWorkflow env cats sampleImage = Except.ok
      { success := decide (([] : List ShopifyProduct).length > 0),
        totalProducts := oi.totalProducts, createdProducts := [],
        errors := some ["Step 3 failed: " ++ e] } ∧
    (∀ r : WorkflowResult, productGeneratorWorkflow env cats sampleImage = Except.ok r →
      r.createdProducts = [] ∧ r.success = decide (r.createdProducts.length > 0) ∧
        (r.createdProducts ≠ [] → r.success = true)) := by
  have hmain : productGeneratorWorkflow env cats sampleImage = Except.ok
      { success := decide (([] : List ShopifyProduct).length > 0),
        totalProducts := oi.totalProducts, createdProducts := [],
        errors := some ["Step 3 failed: " ++ e] } := by
    rw [productGeneratorWorkflow, workflowBody, h1]
    simp only [h2]
  refine ⟨hmain, ?_⟩
  intro r hr
  rw [hmain] at hr
  cases hr
  exact ⟨rfl, rfl, fun hne => absurd rfl hne⟩

/-- Witness for claim C3: the two-chairs input against a create stage with
no credentials configured, which throws its configuration error before any
record is created. -/
theorem c3_create_throw_result_witness :
    organizeInput catsChairs = Except.ok oiChairs ∧
    createShopifyProducts noCredsShopifyEnv
      (generateProducts throwingGenEnv oiChairs none) =
      Except.error (createCredMsg noCredsShopifyEnv) ∧
    productGeneratorWorkflow ⟨throwingGenEnv, noCredsShopifyEnv, noCredsShopifyEnv⟩
      catsChairs none = Except.ok
        { success := decide (([] : List ShopifyProduct).length > 0),
          totalProducts := oiChairs.totalProducts, createdProducts := [],
          errors := some ["Step 3 failed: " ++ createCredMsg noCredsShopifyEnv] } :=
  ⟨organize_catsChairs, rfl,
    (c3_create_throw_result ⟨throwingGenEnv, noCredsShopifyEnv, noCredsShopifyEnv⟩
      catsChairs none oiChairs _ organize_catsChairs rfl).1⟩

/-! ## Claim C9 — publish failure is non-terminal -/

/-- Claim C9: a Publish-stage throw after a completed Create appends the
stage-4 error and still reaches Done with `success: true` and `created`
unchanged; the Done result always carries `totalRequested =
batch.totalCount` and an `errors` field that is the accumulated list when
non-empty and absent (`none`) when empty.  Stated for every behaviour of
the stage functions and for the concrete pipeline composition. -/
theorem c9_publish_failure_nonterminal :
    (∀ (cats : List RawCategory)
      (genStep : OrganizedInput → Except String (Option (List GeneratedProduct)))
      (createStep : List GeneratedProduct → Except String (List ShopifyProduct))
      (uploadStep : List ShopifyProduct → Except String (List UploadPayloadModel))
      (oi : OrganizedInput) (gp : List GeneratedProduct) (cp : List ShopifyProduct)
      (e : String),
      organizeInput cats = Except.ok oi →
      genStep oi = Except.ok (some gp) →
      createStep gp = Except.ok cp →
      uploadStep cp = Except.error e →
      workflowBody cats genStep createStep uploadStep = Except.ok
        { success := true, totalProducts := oi.totalProducts, createdProducts := cp,
          errors := some ["Step 4 failed: " ++ e] }) ∧
    (∀ (cats : List RawCategory)
      (genStep : OrganizedInput → Except String (Option (List GeneratedProduct)))
      (createStep : List GeneratedProduct → Except String (List ShopifyProduct))
      (uploadStep : List ShopifyProduct → Except String (List UploadPayloadModel))
      (oi : OrganizedInput) (gp : List GeneratedProduct) (cp : List ShopifyProduct)
      (t : List UploadPayloadModel),
      organizeInput cats = Except.ok oi →
      genStep oi = Except.ok (some gp) →
      createStep gp = Except.ok cp →
      uploadStep cp = Except.ok t →
      workflowBody cats genStep createStep uploadStep = Except.ok
        { success := true, totalProducts := oi.totalProducts, createdProducts := cp,
          errors := none }) ∧
    (∀ (env : WorkflowEnv) (cats : List RawCategory) (sampleImage : Option String)
      (oi : OrganizedInput) (cp : List ShopifyProduct) (e : String),
      organizeInput cats = Except.ok oi →
      createShopifyProducts env.createEnv (generateProducts env.genEnv oi sampleImage) =
        Except.ok cp →
      uploadProductImages env.uploadEnv cp = Except.error e →
      productGeneratorWorkflow env cats sampleImage = Except.ok
        { success := true, totalProducts := oi.totalProducts, createdProducts := cp,
          errors := some ["Step 4 failed: " ++ e] }) := by
  refine ⟨?_, ?_, ?_⟩
  · intro cats genStep createStep uploadStep oi gp cp e h1 h2 h3 h4
    simp only [workflowBody, h1, h2, h3, h4]
  · intro cats genStep createStep uploadStep oi gp cp t h1 h2 h3 h4
    simp only [workflowBody, h1, h2, h3, h4]
  · intro env cats sampleImage oi cp e h1 h2 h3
    simp only [productGeneratorWorkflow, workflowBody, h1, h2, h3]

/-- The records the create stage produces in the C9 witness run (a closed
term; its value is irrelevant to the witness, which exercises the
credential-failure path of the upload stage). -/
def c9Records : List ShopifyProduct :=
  createLoop credsShopifyEnv (generateProducts throwingGenEnv oiChairs none) 0

/-- Witness for claim C9: create succeeds against `credsShopifyEnv`, the
upload stage reads an environment with no credentials and throws, and the
pipeline still reports success with the created records. -/
theorem c9_publish_failure_nonterminal_witness :
    organizeInput catsChairs = Except.ok oiChairs ∧
    uploadProductImages noCredsShopifyEnv c9Records = Except.error uploadCredMsg ∧
    productGeneratorWorkflow ⟨throwingGenEnv, credsShopifyEnv, noCredsShopifyEnv⟩
      catsChairs none = Except.ok
        { success := true, totalProducts := oiChairs.totalProducts,
          createdProducts := c9Records,
          errors := some ["Step 4 failed: " ++ uploadCredMsg] } :=
  ⟨organize_catsChairs, rfl,
    c9_publish_failure_nonterminal.2.2 ⟨throwingGenEnv, credsShopifyEnv, noCredsShopifyEnv⟩
      catsChairs none oiChairs c9Records uploadCredMsg organize_catsChairs rfl rfl⟩

/-! ## Claim C8 — upload throws only on missing credentials -/

/-- The upload loop's trace does not depend on the response oracle: every
attempted call is recorded and every failure is swallowed. -/
lemma uploadLoop_eq_filterMap (env : ShopifyEnv) (products : List ShopifyProduct) (idx : Nat) :
    uploadLoop env products idx = products.filterMap uploadAttempt := by
  induction products generalizing idx with
  | nil => rfl
  | cons p rest ih =>
    rw [uploadLoop, List.filterMap_cons]
    cases h : uploadAttempt p with
    | none => rw [ih]
    | some payload =>
      cases env.uploadResp idx with
      | throws => rw [ih]
      | resp ok => rw [ih]

/-- Claim C8: `uploadProductImages` throws iff the platform credentials
are absent (checked once before iterating); once the check passes, the
call completes for every input sequence and every response behaviour —
per-record failures are swallowed — performing exactly the uploads of the
records with non-empty image data. -/
theorem c8_upload_characterization (env : ShopifyEnv) (products : List ShopifyProduct) :
    ((∃ t, uploadProductImages env products = Except.ok t) ↔
      shopifyCredsMissing env = false) ∧
    uploadProductImages env products =
      (if shopifyCredsMissing env then Except.error uploadCredMsg
       else Except.ok (products.filterMap uploadAttempt)) := by
  constructor
  · rw [uploadProductImages]
    by_cases h : shopifyCredsMissing env <;> simp [h]
  · rw [uploadProductImages]
    by_cases h : shopifyCredsMissing env
    · simp [h]
    · simp [h, uploadLoop_eq_filterMap]

end ProductPipeline
